import Mathlib

/-!
Verification of the multi-agent character simulation in
src/src/components/SkinViewer.jsx (playcdu/skinview).

The definitions below are a shallow embedding of the simulation core:
JavaScript numbers are modelled as rationals (float operations are read as
exact real arithmetic), mutable character records become a Lean structure,
and the per-frame mutation blocks become pure state-transition functions.
Each definition carries a comment naming the source lines it embeds.

Modelling conventions used throughout:
- Math.sqrt only ever feeds comparisons or divisions here.  Comparisons
  such as sqrt d2 < r (r > 0) are rewritten to d2 < r^2, which is exact by
  strict monotonicity of the real square root.  Where the code uses the
  value of a square root (unit-vector divisions, score terms) we use
  ratSqrt, which is exact whenever the radicand is the square of a
  rational; every concrete evaluation in this file only hits such inputs.
- Math.random() draws are passed in explicitly as arguments (an angle draw
  is passed as the cosine/sine pair it is only ever used through).
- Rotation / pose fields (group.rotation, fallRotation, throwRotation and
  the skeleton poses) are pure rendering outputs that the simulation logic
  settled here never reads back; they are omitted from the record.
- Date.now() wall-clock values are passed in as rational millisecond
  arguments; the fixed simulation step is deltaTime = 1/24 s
  (frameInterval / 1000 with targetFPS = 24, SkinViewer.jsx:291-292,1463).
-/

namespace SkinView

/-- Animation states, SkinViewer.jsx:75-81 (const ANIMATION_STATES). -/
inductive AnimState where
  | idle
  | walk
  | hit
  | wave
  | run
deriving DecidableEq

/-- Fuelled integer square root (halving recursion on the argument, one
fuel unit per halving level), kept structurally recursive so that concrete
values reduce inside the kernel. -/
def isqrtFuel : ℕ → ℕ → ℕ
  | 0, _ => 0
  | fuel + 1, n =>
    if n < 2 then n
    else
      let r := 2 * isqrtFuel fuel (n / 4)
      if (r + 1) * (r + 1) ≤ n then r + 1 else r

/-- Floor integer square root. -/
def intSqrt (n : ℕ) : ℕ := isqrtFuel n n

/-- Rational stand-in for Math.sqrt: exact whenever the argument is the
square of a rational (for q = (a/b)^2 in lowest terms, num*den = a^2*b^2 and
the result is a/b).  All concrete evaluations in this file use only such
arguments. -/
def ratSqrt (q : ℚ) : ℚ := (intSqrt (q.num.toNat * q.den) : ℚ) / (q.den : ℚ)

/-- Fixed simulation time step in seconds: frameInterval / 1000 with
targetFPS = 24 (SkinViewer.jsx:291-292, 1463). -/
def deltaTime : ℚ := 1 / 24

/-- Per-character mutable record, as built by addCharacter
(SkinViewer.jsx:977-1003) together with the transient fields attached to it
by the interaction / physics code (isHit, knockbackVelocity, runAwayTimer,
throwVelocity, isDying, ...).  path.x/path.z and group.position.x/z are kept
in lockstep by the code paths modelled here, so they are a single x/z pair;
group.position.y is the y field.  changeTargetTime uses WithTop ℚ because
the code stores Infinity in it (SkinViewer.jsx:1748). -/
structure Character where
  username : String
  clusterId : String
  x : ℚ
  z : ℚ
  y : ℚ
  targetX : ℚ
  targetZ : ℚ
  changeTargetTime : WithTop ℚ
  animationState : AnimState
  animationStateTimer : ℚ
  animProgress : ℚ
  animSpeed : ℚ
  waveDuration : Option ℚ
  waveArmLeft : Bool
  idleDuration : Option ℚ
  opacity : ℚ
  tintR : ℚ
  tintG : ℚ
  tintB : ℚ
  isHit : Bool
  hitTimer : Option ℚ
  isBeingHit : Bool
  wasHitByPlayer : Bool
  knockbackVelocity : Option (ℚ × ℚ × ℚ)
  gravity : ℚ
  knockbackStartTime : Option ℚ
  knockbackMinDuration : Option ℚ
  runAwayTimer : Option ℚ
  runAwayTarget : Option (ℚ × ℚ)
  runAwayFrom : Option String
  shouldRunAway : Bool
  hitTargetPlayer : Option String
  isHitting : Bool
  hitAnimationTimer : Option ℚ
  isThrown : Bool
  isFloating : Bool
  throwVelocity : Option (ℚ × ℚ)
  dropVelocity : Option ℚ
  isDying : Bool
  deathTimer : ℚ
  formationMode : Bool
  stuckTimer : ℚ
  pathBlockedCheckTimer : ℚ
  lastDistanceToTarget : Option ℚ
deriving DecidableEq

/-- Usernames of a registry, in order (characters.map(char => char.username),
SkinViewer.jsx:1097). -/
def names (reg : List Character) : List String := reg.map (·.username)

/-- Roster entry returned by fetchOnlinePlayers (SkinViewer.jsx:55-62):
every entry carries a username and a clusterId. -/
structure RosterEntry where
  username : String
  clusterId : String
deriving DecidableEq

/-- Core of addCharacter (SkinViewer.jsx:908-1026): a no-op when a character
with the same username is already present (lines 911-914), otherwise the
freshly built character record is pushed onto the array (line 1005).  The
record construction itself (skin loading, random spawn position) is
abstracted into the already-built argument c. -/
def addCharacter (c : Character) (reg : List Character) : List Character :=
  if c.username ∈ names reg then reg else reg ++ [c]

/-- removeCharacter (SkinViewer.jsx:1029-1065): findIndex + splice(1)
removes the first character with the given username; a no-op when absent
(line 1033). -/
def removeCharacter (u : String) : List Character → List Character
  | [] => []
  | ch :: rest => if ch.username = u then rest else ch :: removeCharacter u rest

/-- ClusterId refresh inside syncCharacters (SkinViewer.jsx:1126-1131):
currentCharacters.find locates the first character with the username and
overwrites its clusterId in place. -/
def updateClusterId (u cid : String) : List Character → List Character
  | [] => []
  | ch :: rest =>
      if ch.username = u then { ch with clusterId := cid } :: rest
      else ch :: updateClusterId u cid rest

/-- Result of a sync pass: the added / removed username lists and the
registry after the pass. -/
structure SyncResult where
  added : List String
  removed : List String
  registry : List Character

/-- Removal pass of syncCharacters (toRemove.forEach(removeCharacter),
SkinViewer.jsx:1107-1112). -/
def removeFold (us : List String) (reg : List Character) : List Character :=
  us.foldl (fun r u => removeCharacter u r) reg

/-- Addition pass of syncCharacters (SkinViewer.jsx:1122-1123), applied
sequentially as the spec requires external registry calls to be serialized;
mk builds the fresh character record for a roster entry (capturing the
random spawn draws). -/
def addFold (mk : RosterEntry → Character) (ps : List RosterEntry)
    (reg : List Character) : List Character :=
  ps.foldl (fun r p => addCharacter (mk p) r) reg

/-- ClusterId refresh pass of syncCharacters
(onlinePlayers.forEach, SkinViewer.jsx:1126-1131). -/
def ucFold (ps : List RosterEntry) (reg : List Character) : List Character :=
  ps.foldl (fun r p => updateClusterId p.username p.clusterId r) reg

/-- Diff half of syncCharacters (SkinViewer.jsx:1101): roster entries whose
username is not among the pre-sync usernames. -/
def syncToAdd (roster : List RosterEntry) (reg : List Character) :
    List RosterEntry :=
  roster.filter (fun p => !((names reg).contains p.username))

/-- Diff half of syncCharacters (SkinViewer.jsx:1104): pre-sync usernames
not present in the roster. -/
def syncToRemove (roster : List RosterEntry) (reg : List Character) :
    List String :=
  (names reg).filter (fun u => !((roster.map (·.username)).contains u))

/-- syncCharacters (SkinViewer.jsx:1094-1147): toAdd and toRemove are
computed from the pre-sync username lists (1097-1104), removals are applied
first (1107-1112), then the additions (1122-1123), then every roster entry
found among the current characters gets its clusterId rewritten in place
(1126-1131). -/
def syncCharacters (mk : RosterEntry → Character) (roster : List RosterEntry)
    (reg : List Character) : SyncResult :=
  let toAdd := syncToAdd roster reg
  let toRemove := syncToRemove roster reg
  { added := toAdd.map (·.username)
    removed := toRemove
    registry := ucFold roster (addFold mk toAdd (removeFold toRemove reg)) }

/-- hitCharacter (SkinViewer.jsx:793-835), the user-initiated click hit.
Guard: a character already in the hit state is skipped outright (line 795).
Otherwise: isHit set, hitTimer 0.6 s, wasHitByPlayer cleared (user hit), the
red tint (1.5, 0.5, 0.5) is multiplied onto the materials (modelled as the
aggregate tint fields), and the knockback velocity, gravity 0.5, wall-clock
start time (Date.now()) and 0.8 s minimum duration are installed.  camX/camZ
are the normalized camera direction components (line 818-820). -/
def hitCharacter (camX camZ nowMs : ℚ) (c : Character) : Character :=
  if c.isHit then c
  else
    { c with
      isHit := true
      hitTimer := some (6 / 10)
      wasHitByPlayer := false
      tintR := c.tintR * (3 / 2)
      tintG := c.tintG * (1 / 2)
      tintB := c.tintB * (1 / 2)
      knockbackVelocity := some (-camX * 18, 22, -camZ * 18)
      gravity := 1 / 2
      knockbackStartTime := some nowMs
      knockbackMinDuration := some (8 / 10) }

/-- Target-sampling radius of one candidate draw (SkinViewer.jsx:2661-2665
and the identical replan copy 2950-2954): distanceBias is 0.5 with
probability 0.6 and 0.0 otherwise (the outerBias flag is the
Math.random() < 0.6 draw), u is the radius draw in [0, 1), and
radius = maxTargetDistance*0.3 + u * (maxTargetDistance * (0.7 + distanceBias))
with maxTargetDistance = 450 (line 2650). -/
def candidateRadius (outerBias : Bool) (u : ℚ) : ℚ :=
  let distanceBias : ℚ := if outerBias then 1 / 2 else 0
  450 * (3 / 10) + u * (450 * (7 / 10 + distanceBias))

/-- Run-away handler of the per-frame update (SkinViewer.jsx:2568-2615).
hitterObj is the dereferenced char.runAwayFrom object: the code only checks
that the stored object reference is non-null and structurally intact
(runAwayFrom && runAwayFrom.path && runAwayFrom.group, line 2574), which a
registry removal does not affect, so the caller dereferences through the
object heap, not through the registry.  Comparisons on the hitter distance
(dist > 0 && dist < 300, line 2583) are expressed on the squared distance;
the 180-unit flee point and the 0.9/0.1 centre blend (2585-2592) use
ratSqrt for the unit vector.  The trailing timer-expiry check (2608-2614)
reads the decremented timer and is a no-op when the timer was already
cleared (undefined <= 0 is false in JS). -/
def runAwayUpdate (dt : ℚ) (hitterObj : Option (ℚ × ℚ)) (c : Character) :
    Character :=
  match c.runAwayTimer with
  | none => c
  | some t =>
    if t ≤ 0 then c
    else
      let c1 : Character := { c with runAwayTimer := some (t - dt) }
      let c2 : Character :=
        match hitterObj with
        | some hp =>
          let dirX := c1.x - hp.1
          let dirZ := c1.z - hp.2
          let dist2 := dirX ^ 2 + dirZ ^ 2
          if 0 < dist2 ∧ dist2 < 300 ^ 2 then
            let dist := ratSqrt dist2
            let pureX := c1.x + dirX / dist * 180
            let pureZ := c1.z + dirZ / dist * 180
            { c1 with runAwayTarget := some (pureX * (9 / 10), pureZ * (9 / 10)) }
          else
            { c1 with animationState := AnimState.walk, runAwayTimer := none,
                      runAwayTarget := none, runAwayFrom := none }
        | none =>
          { c1 with animationState := AnimState.walk, runAwayTimer := none,
                    runAwayTarget := none, runAwayFrom := none }
      match c2.runAwayTimer with
      | none => c2
      | some t2 =>
        if t2 ≤ 0 then
          { c2 with animationState := AnimState.walk, runAwayTimer := none,
                    runAwayTarget := none, runAwayFrom := none }
        else c2

/-- World state for cross-character references: the registry array
(charactersRef.current) plus the heap of character objects that JS
references keep alive.  removeCharacter splices an entry out of the array
(SkinViewer.jsx:1061) but the spliced object itself survives with its path
and group fields intact, so removal changes registry and never heap. -/
structure SimWorld where
  registry : List Character
  heap : List (String × (ℚ × ℚ))

/-- Dereference of a stored object reference (the live JS handle): looks up
the object heap and is oblivious to registry membership. -/
def deref (w : SimWorld) (ref : Option String) : Option (ℚ × ℚ) :=
  ref.bind (fun id => (w.heap.find? (fun e => e.1 == id)).map (·.2))

/-- Per-tick run-away update of one holder inside the simulation world:
the holder dereferences its stored runAwayFrom handle through the object
heap (SkinViewer.jsx:2574-2576 reads runAwayFrom.path.x/z directly off the
retained object). -/
def runAwayTick (dt : ℚ) (w : SimWorld) (c : Character) : Character :=
  runAwayUpdate dt (deref w c.runAwayFrom) c

/-- Loop indices of the path-blocked sampling loop
(for i = 1..pathCheckPoints with pathCheckPoints = 5, SkinViewer.jsx:2809). -/
def sampleIndices : List ℕ := [1, 2, 3, 4, 5]

/-- Membership test of one other character against one sample point along
the line to the target: the i-th point is path + (dx, dz) * i/5 (in the
source dir * stepSize * i with dir = d/dist and stepSize = dist/5, so the
square root cancels exactly), and the character obstructs it when within 40
units (squared-distance comparison, SkinViewer.jsx:2810-2823). -/
def nearSamplePoint (c : Character) (i : ℕ) (o : Character) : Bool :=
  decide ((c.x + (c.targetX - c.x) * (i : ℚ) / 5 - o.x) ^ 2
      + (c.z + (c.targetZ - c.z) * (i : ℚ) / 5 - o.z) ^ 2 < 40 ^ 2)

/-- Obstruction count of the path-blocked detector
(SkinViewer.jsx:2802-2827): for every sample point, each other character
within 40 units increments blockedCount, so the total counts
point/character pairs. -/
def blockedPairCount (c : Character) (others : List Character) : ℕ :=
  sampleIndices.foldl (fun acc i => acc + others.countP (nearSamplePoint c i)) 0

/-- Number of the 5 sample points that have at least one other character
within 40 units.  This is the quantity the specification text speaks about
(fraction of sample points obstructed); the code does not compute it. -/
def obstructedPointCount (c : Character) (others : List Character) : ℕ :=
  sampleIndices.countP (fun i => others.any (nearSamplePoint c i))

/-- Path-blocked check step (SkinViewer.jsx:2796-2831): the timer
accumulates deltaTime; once it exceeds 0.5 s and the target is more than 15
units away (squared-distance comparison), the timer resets and the path
counts as blocked when blockedCount > 5 * 0.3.  Returns the new timer value
and the isPathBlocked flag. -/
def pathBlockedStep (dt timer0 : ℚ) (c : Character) (others : List Character) :
    ℚ × Bool :=
  if 1 / 2 < timer0 + dt ∧
      (15 : ℚ) ^ 2 < (c.targetX - c.x) ^ 2 + (c.targetZ - c.z) ^ 2 then
    (0, decide ((5 : ℚ) * (3 / 10) < (blockedPairCount c others : ℚ)))
  else (timer0 + dt, false)

/-- Knockback physics step (SkinViewer.jsx:3385-3428).  knockbackElapsed is
wall-clock: (Date.now() - knockbackStartTime) / 1000, Infinity when no start
time is stored (line 3388); minDuration defaults to 0 (line 3389).  The
velocity moves the position (3392-3394), gravity then decrements the
vertical velocity (3397, char.gravity || 0.5).  The knockback clears only
when the character is at or below ground AND the minimum duration has
elapsed (3400-3420); grounded early, it is pinned to y = 0 and the
horizontal knockback is applied a second time (3421-3427).  On settle: a
character already in the run state keeps running; otherwise a user-initiated
hit (wasHitByPlayer false, set at line 799) waves for 4-6 s; otherwise the
state is left untouched (run-away starts when the red overlay expires,
3377-3381). -/
def knockbackStep (dt nowMs rngWave : ℚ) (rngArmLeft : Bool) (c : Character) :
    Character :=
  match c.knockbackVelocity with
  | none => c
  | some v =>
    let minDuration : ℚ := c.knockbackMinDuration.getD 0
    let elapsedOk : Bool :=
      match c.knockbackStartTime with
      | some t0 => decide (minDuration ≤ (nowMs - t0) / 1000)
      | none => true
    let x1 := c.x + v.1 * dt
    let z1 := c.z + v.2.2 * dt
    let y1 := c.y + v.2.1 * dt
    let g : ℚ := if c.gravity = 0 then 1 / 2 else c.gravity
    let vy1 := v.2.1 - g
    if y1 ≤ 0 ∧ elapsedOk = true then
      let c1 : Character :=
        { c with x := x1, z := z1, y := 0, knockbackVelocity := none,
                 knockbackStartTime := none, knockbackMinDuration := none }
      if c1.animationState = AnimState.run then
        { c1 with wasHitByPlayer := false }
      else if c1.wasHitByPlayer = false then
        { c1 with animationState := AnimState.wave,
                  waveDuration := some (4 + rngWave * 2),
                  waveArmLeft := rngArmLeft, animProgress := 0 }
      else
        { c1 with wasHitByPlayer := false }
    else if y1 ≤ 0 then
      { c with x := x1 + v.1 * dt, z := z1 + v.2.2 * dt, y := 0,
               knockbackVelocity := some (v.1, vy1, v.2.2) }
    else
      { c with x := x1, z := z1, y := y1,
               knockbackVelocity := some (v.1, vy1, v.2.2) }

/-- Iterated knockback steps: one entry of the list per executed simulation
frame, carrying that frame's Date.now() value and the wave-duration / arm
draws that a settle on that frame would consume. -/
def knockbackRun (dt : ℚ) (frames : List (ℚ × ℚ × Bool)) (c : Character) :
    Character :=
  frames.foldl (fun a f => knockbackStep dt f.1 f.2.1 f.2.2 a) c

/-- Victim side of an executed character-to-character hit
(SkinViewer.jsx:2480-2537): red overlay via isBeingHit/hitTimer 0.6 s, tint
multiplication, knockback (direction * 15 horizontally, 18 up, gravity 0.5,
wall-clock start, 0.8 s minimum), a 6-10 s run-away timer, the flee target
180 units past the victim blended 90/10 towards the origin, the retained
reference to the hitter, the shouldRunAway flag, and wasHitByPlayer set
(marking an agent-vs-agent hit).  kdirX/kdirZ is the attacker-to-victim
unit direction (distX/dist, distZ/dist at line 2510), rngRun the run-timer
draw in [0, 1). -/
def applyAgentHit (kdirX kdirZ nowMs rngRun : ℚ) (hitterName : String)
    (victim : Character) : Character :=
  { victim with
    isBeingHit := true
    hitTimer := some (6 / 10)
    tintR := victim.tintR * (3 / 2)
    tintG := victim.tintG * (1 / 2)
    tintB := victim.tintB * (1 / 2)
    knockbackVelocity := some (kdirX * 15, 18, kdirZ * 15)
    gravity := 1 / 2
    knockbackStartTime := some nowMs
    knockbackMinDuration := some (8 / 10)
    runAwayTimer := some (6 + rngRun * 4)
    runAwayTarget := some ((victim.targetX - kdirX * 180) * (9 / 10),
                           (victim.targetZ - kdirZ * 180) * (9 / 10))
    runAwayFrom := some hitterName
    shouldRunAway := true
    wasHitByPlayer := true }

/-- Red-overlay expiry handler for character-to-character hits
(SkinViewer.jsx:3355-3383): while isBeingHit the hit timer counts down; on
expiry the tint is divided back out, the flags clear, and a victim with
shouldRunAway set and a live run-away timer switches to the run state. -/
def beingHitOverlayStep (dt : ℚ) (c : Character) : Character :=
  if c.isBeingHit = true then
    match c.hitTimer with
    | none => c
    | some ht =>
      let ht1 := ht - dt
      if ht1 ≤ 0 then
        let c1 : Character :=
          { c with tintR := c.tintR / (3 / 2), tintG := c.tintG / (1 / 2),
                   tintB := c.tintB / (1 / 2), isBeingHit := false,
                   hitTimer := none }
        if c1.shouldRunAway = true ∧ c1.runAwayTimer.isSome = true then
          { c1 with animationState := AnimState.run, shouldRunAway := false }
        else c1
      else { c with hitTimer := some ht1 }
  else c

/-- Random draws consumed by the death-respawn block
(SkinViewer.jsx:1818-1844): the spawn angle (as its cosine/sine pair), the
radius draw, the two jitter draws (each modelling Math.random() - 0.5), the
wave-duration draw, the wave-arm draw, and the millisecond value
Date.now() + Math.random() * 2000 + 1000 stored into changeTargetTime. -/
structure RespawnDraw where
  dirX : ℚ
  dirZ : ℚ
  radiusU : ℚ
  jitterX : ℚ
  jitterZ : ℚ
  waveU : ℚ
  armLeft : Bool
  cttMs : ℚ

/-- Death-sequence branch of the per-character update
(SkinViewer.jsx:1733-1893), reached first and returning early for every
dying character.  The death timer counts down, any throw/drop velocity is
zeroed, pathing is locked to the current position with an Infinity
changeTargetTime, run-away and hit-target state is cleared, and the opacity
fades as deathTimer / 1.2.  When the timer runs out the character respawns
in place: random annulus position, all flags reset, tint and opacity
restored, and a 2-3 s wave (fall-over rotation smoothing, a pure rendering
output, is omitted per the module conventions). -/
def dyingStep (dt : ℚ) (r : RespawnDraw) (c : Character) : Character :=
  let timer1 := c.deathTimer - dt
  let c1 : Character :=
    { c with
      deathTimer := timer1
      throwVelocity := match c.throwVelocity with
        | some _ => some (0, 0)
        | none => none
      dropVelocity := match c.dropVelocity with
        | some _ => some 0
        | none => none
      targetX := c.x
      targetZ := c.z
      changeTargetTime := ⊤
      shouldRunAway := false
      runAwayTimer := none
      runAwayTarget := none
      runAwayFrom := none
      hitTargetPlayer := none
      isHitting := false
      opacity := timer1 / (6 / 5) }
  if timer1 ≤ 0 then
    let radius := 50 + r.radiusU * 150
    { c1 with
      x := r.dirX * radius + r.jitterX * 120 * (1 / 2)
      z := r.dirZ * radius + r.jitterZ * 120 * (1 / 2)
      y := 0
      isThrown := false
      isFloating := false
      isDying := false
      throwVelocity := none
      dropVelocity := none
      isHit := false
      hitTimer := none
      animationState := AnimState.wave
      waveDuration := some (2 + r.waveU)
      waveArmLeft := r.armLeft
      animProgress := 0
      changeTargetTime := (r.cttMs : ℚ)
      tintR := 1
      tintG := 1
      tintB := 1
      opacity := 1 }
  else c1

/-- Thrown-flight branch (SkinViewer.jsx:2143-2357), as it acts on the
thrown character itself (the mid-air pole-collision block 2190-2261 only
mutates the struck bystander).  The screen-edge check runs on the pre-move
position: past 500 units from the origin and not yet dying, the character
enters the death sequence once (isDying, 1.2 s timers, movement zeroed, red
tint clamped at 1.0).  Otherwise a non-dying character integrates the throw:
horizontal velocity, vertical velocity with an 8-unit height clamp, gravity
9.8 per squared second, multiplicative air drag (1 - 2 dt), and a snap to
zero below 0.1.  Landing (not dying, at or below ground) ends the throw and
returns to walking. -/
def thrownStep (dt : ℚ) (c : Character) : Character :=
  match c.throwVelocity with
  | none => c
  | some tv =>
    let c1 : Character :=
      if (500 : ℚ) ^ 2 < c.x ^ 2 + c.z ^ 2 ∧ c.isDying = false then
        { c with isDying := true, deathTimer := 6 / 5, isHit := true,
                 hitTimer := some (6 / 5), throwVelocity := some (0, 0),
                 dropVelocity := some 0,
                 tintR := min (c.tintR * (3 / 2)) 1,
                 tintG := min (c.tintG * (1 / 2)) 1,
                 tintB := min (c.tintB * (1 / 2)) 1 }
      else if c.isDying = false then
        let dv0 := c.dropVelocity.getD 0
        let yRaw := c.y + dv0 * dt
        let tvx1 := tv.1 * (1 - dt * 2)
        let tvz1 := tv.2 * (1 - dt * 2)
        { c with
          x := c.x + tv.1 * dt
          z := c.z + tv.2 * dt
          y := if 8 < yRaw then 8 else yRaw
          dropVelocity := some ((if 8 < yRaw then 0 else dv0) - 49 / 5 * dt)
          throwVelocity := some (if |tvx1| < 1 / 10 then 0 else tvx1,
                                 if |tvz1| < 1 / 10 then 0 else tvz1)
          animProgress := c.animProgress + dt * c.animSpeed }
      else c
    if c1.isDying = false ∧ c1.y ≤ 0 then
      { c1 with y := 0, isThrown := false, isFloating := false,
                throwVelocity := none, dropVelocity := none,
                animationState := AnimState.walk }
    else c1

/-- Guard of the screen-edge death assignment (SkinViewer.jsx:2144-2149):
the character is mid-throw (isThrown with a velocity), the death flag is not
yet set, and the pre-move position is more than 500 units from the origin. -/
def firesEdgeDeath (c : Character) : Bool :=
  c.isThrown && c.throwVelocity.isSome && !c.isDying &&
    decide ((500 : ℚ) ^ 2 < c.x ^ 2 + c.z ^ 2)

/-- Override-phase dispatch of one per-character tick for characters outside
formation mode: the dying branch runs first and returns early
(SkinViewer.jsx:1732-1893), then the thrown branch (2143-2357, also
returning early).  The remaining grounded behaviour (replanning, steering,
walking) never assigns isThrown or isDying to the character itself — the
only isDying assignments elsewhere target the bystander struck by a
different thrown character, which skips characters that are dying or thrown
(line 2192) — so for the edge-death claim the grounded remainder acts as
the identity on these flags. -/
def agentTickOverride (dt : ℚ) (r : RespawnDraw) (c : Character) : Character :=
  if c.isDying = true then dyingStep dt r c
  else if c.isThrown = true ∧ c.throwVelocity.isSome = true then thrownStep dt c
  else c

/-- Random draws of one target-candidate attempt
(SkinViewer.jsx:2661-2665, 2711): the angle draw as its cosine/sine pair,
the Math.random() < 0.6 outer-bias draw, the radius draw in [0, 1), and the
tie-breaking noise draw in [0, 1) (scaled by 0.2 at use). -/
structure AttemptDraw where
  dirX : ℚ
  dirZ : ℚ
  outerBias : Bool
  radiusU : ℚ
  noiseU : ℚ

/-- Random draws of the no-candidate fallback (SkinViewer.jsx:2742-2746). -/
structure FallbackDraw where
  dirX : ℚ
  dirZ : ℚ
  u : ℚ

/-- Density score of a candidate point (SkinViewer.jsx:2673-2698): every
other character within 120 units contributes (120 - dist) / 120, and every
other character whose chosen target lies within 100 units contributes a
3-weighted (100 - dist) / 100 penalty.  Comparisons are on squared
distances; the weights use ratSqrt. -/
def candidateDensity (cx cz : ℚ) (others : List Character) : ℚ :=
  others.foldl
    (fun acc o =>
      let d2p := (cx - o.x) ^ 2 + (cz - o.z) ^ 2
      let acc1 := if 0 < d2p ∧ d2p < 120 ^ 2
        then acc + (120 - ratSqrt d2p) / 120 else acc
      let d2t := (cx - o.targetX) ^ 2 + (cz - o.targetZ) ^ 2
      if 0 < d2t ∧ d2t < 100 ^ 2
        then acc1 + (100 - ratSqrt d2t) / 100 * 3 else acc1)
    0

/-- Bottom-of-screen penalty (SkinViewer.jsx:2700-2708): negative-Z
candidates take a penalty of up to 2, scaled by depth / maxTargetDistance. -/
def bottomPenalty (cz : ℚ) : ℚ :=
  if cz < 0 then |cz| / 450 * 2 else 0

/-- Scored candidate point. -/
structure Candidate where
  x : ℚ
  z : ℚ
  density : ℚ
deriving DecidableEq

/-- Candidate sampling loop (SkinViewer.jsx:2659-2717): each of the 25
attempts draws an angle and a radius, rejects the candidate when it lies
within minTargetDistance = 120 of the current position (squared-distance
comparison, line 2670-2671), and otherwise scores it with the density, the
bottom penalty and the (1 + noise) tie-breaker factor. -/
def sampleCandidates (draws : List AttemptDraw) (others : List Character)
    (c : Character) : List Candidate :=
  draws.filterMap
    (fun d =>
      let r := candidateRadius d.outerBias d.radiusU
      let cx := d.dirX * r
      let cz := d.dirZ * r
      if (cx - c.x) ^ 2 + (cz - c.z) ^ 2 < (120 : ℚ) ^ 2 then none
      else some { x := cx, z := cz,
                  density := (candidateDensity cx cz others + bottomPenalty cz)
                    * (1 + d.noiseU * (1 / 5)) })

/-- Stable insertion of an element behind every already-placed element it
does not strictly beat; insertion sort with this step computes the same
ordering as the stable JS Array.prototype.sort. -/
def insertLe (le : Candidate → Candidate → Bool) (a : Candidate) :
    List Candidate → List Candidate
  | [] => [a]
  | b :: rest => if le b a then b :: insertLe le a rest else a :: b :: rest

/-- Stable sort used to model candidates.sort (SkinViewer.jsx:2721, 2735). -/
def sortStable (le : Candidate → Candidate → Bool) :
    List Candidate → List Candidate
  | [] => []
  | a :: rest => insertLe le a (sortStable le rest)

/-- Candidate selection (SkinViewer.jsx:2719-2747).  The survivors are
sorted ascending by density; the lowest 20 percent (at least one) are kept;
reading topCandidates[0].density throws a TypeError when the candidate list
is empty, which the model returns as an error — the written fallback (lines
2742-2746, a uniform point in the outer half of the bounds) sits behind the
selectedCandidate truthiness test and is unreachable, because bestCandidates
always retains the sorted head when candidates exist.  Within 10 percent of
the best density, the candidate maximizing
0.7 * distanceFromCurrent + 0.3 * distanceFromOrigin wins. -/
def selectTarget (draws : List AttemptDraw) (fb : FallbackDraw)
    (others : List Character) (c : Character) : Except String (ℚ × ℚ) :=
  let candidates := sampleCandidates draws others c
  let sorted := sortStable (fun a b => decide (a.density ≤ b.density)) candidates
  let top := sorted.take (max 1 (candidates.length / 5))
  match top with
  | [] => Except.error "TypeError: cannot read density of undefined"
  | t0 :: _ =>
    let threshold := t0.density * (11 / 10)
    let best := top.filter (fun cand => decide (cand.density ≤ threshold))
    let scoreOf : Candidate → ℚ := fun cand =>
      ratSqrt ((cand.x - c.x) ^ 2 + (cand.z - c.z) ^ 2) * (7 / 10)
        + ratSqrt (cand.x ^ 2 + cand.z ^ 2) * (3 / 10)
    let bestSorted := sortStable (fun a b => decide (scoreOf b ≤ scoreOf a)) best
    let selected : Option Candidate := match bestSorted with
      | sel :: _ => some sel
      | [] => some t0
    match selected with
    | some sel => Except.ok (sel.x, sel.z)
    | none =>
      let radius := 450 * (1 / 2) + fb.u * (450 * (1 / 2))
      Except.ok (fb.dirX * radius, fb.dirZ * radius)

/-- Replan stage of the per-character update (SkinViewer.jsx:2652-2748):
when changeTargetTime is falsy (0) a fresh target is selected and the timer
is re-armed to 4-9 s.  A thrown TypeError from the selection propagates out
of this (uncaught) region of the forEach body; the failing character is
modelled as left in its pre-tick state. -/
def replanStage (draws : List AttemptDraw) (fb : FallbackDraw) (rngNext : ℚ)
    (others : List Character) (c : Character) : Except String Character :=
  if c.changeTargetTime = (0 : ℚ) then
    match selectTarget draws fb others c with
    | Except.error e => Except.error e
    | Except.ok t =>
      Except.ok { c with targetX := t.1, targetZ := t.2,
                         changeTargetTime := ((rngNext * 5 + 4 : ℚ) : WithTop ℚ) }
  else Except.ok c

/-- Animation application with its per-character try/catch
(SkinViewer.jsx:3516-3532): an error from the pose call is logged and
swallowed, leaving the character as the uncaught region produced it. -/
def applyCaughtAnimation (anim : Character → Except String Character)
    (c : Character) : Character :=
  match anim c with
  | Except.ok c2 => c2
  | Except.error _ => c

/-- One per-character update as the tick executes it: the uncaught region
(here its genuinely throwing stage, the replan) followed by the caught
animation application. -/
def charUpdate (anim : Character → Except String Character)
    (draws : List AttemptDraw) (fb : FallbackDraw) (rngNext : ℚ)
    (others : List Character) (c : Character) : Except String Character :=
  (replanStage draws fb rngNext others c).map (applyCaughtAnimation anim)

/-- Tick pass over the registry (allCharacters.forEach,
SkinViewer.jsx:1722): characters update in order; an uncaught exception
from one character propagates out of forEach, so every later character
keeps its pre-tick state and the error surfaces from the pass. -/
def runTick (upd : Character → Except String Character) :
    List Character → List Character × Option String
  | [] => ([], none)
  | c :: rest =>
    match upd c with
    | Except.ok c2 =>
      let r := runTick upd rest
      (c2 :: r.1, r.2)
    | Except.error e => (c :: rest, some e)

end SkinView

namespace SkinView

/-- Character fixture with neutral field values, used to instantiate
concrete scenarios. -/
def baseCharacter : Character where
  username := "base"
  clusterId := "MAIN"
  x := 0
  z := 0
  y := 0
  targetX := 100
  targetZ := 0
  changeTargetTime := (5 : ℚ)
  animationState := AnimState.walk
  animationStateTimer := 7
  animProgress := 0
  animSpeed := 87285 / 100000
  waveDuration := none
  waveArmLeft := true
  idleDuration := none
  opacity := 1
  tintR := 1
  tintG := 1
  tintB := 1
  isHit := false
  hitTimer := none
  isBeingHit := false
  wasHitByPlayer := false
  knockbackVelocity := none
  gravity := 0
  knockbackStartTime := none
  knockbackMinDuration := none
  runAwayTimer := none
  runAwayTarget := none
  runAwayFrom := none
  shouldRunAway := false
  hitTargetPlayer := none
  isHitting := false
  hitAnimationTimer := none
  isThrown := false
  isFloating := false
  throwVelocity := none
  dropVelocity := none
  isDying := false
  deathTimer := 0
  formationMode := false
  stuckTimer := 0
  pathBlockedCheckTimer := 0
  lastDistanceToTarget := none

/-- Concrete character that is currently in the user-hit state (red overlay
timer active). -/
def hitStateCharacter : Character :=
  { baseCharacter with
    isHit := true
    hitTimer := some (3 / 10)
    knockbackVelocity := some (5, 10, 5)
    gravity := 1 / 2
    knockbackStartTime := some 1000
    knockbackMinDuration := some (8 / 10) }

/-- Concrete character builder for added roster entries, standing in for
the record construction inside addCharacter (SkinViewer.jsx:977-1003). -/
def mkFromRoster (p : RosterEntry) : Character :=
  { baseCharacter with username := p.username, clusterId := p.clusterId }

/-- Concrete two-entry roster. -/
def rosterPair : List RosterEntry :=
  [{ username := "alice", clusterId := "c1" },
   { username := "bob", clusterId := "c2" }]

/-- Concrete character fleeing the character object known as b. -/
def runAwayHolder : Character :=
  { baseCharacter with
    username := "a"
    animationState := AnimState.run
    runAwayTimer := some 5
    runAwayTarget := some (7, 7)
    runAwayFrom := some "b" }

/-- World in which b has been removed from the registry while its character
object (still referenced by the holder) sits at (10, 0). -/
def ghostWorldA : SimWorld :=
  { registry := [{ baseCharacter with username := "a" }]
    heap := [("a", (0, 0)), ("b", (10, 0))] }

/-- Same world except that the removed object b sits at (0, 10). -/
def ghostWorldB : SimWorld :=
  { registry := [{ baseCharacter with username := "a" }]
    heap := [("a", (0, 0)), ("b", (0, 10))] }

/-- Concrete character heading from the origin to the target (500, 0). -/
def pathBlockedChar : Character :=
  { baseCharacter with x := 0, z := 0, targetX := 500, targetZ := 0 }

/-- Two other characters flanking the first sample point (100, 0) at
distance 30, and more than 40 units from every other sample point. -/
def pathBlockedOthers : List Character :=
  [{ baseCharacter with username := "o1", x := 100, z := 30 },
   { baseCharacter with username := "o2", x := 100, z := -30 }]

/-- Concrete character about to settle from a user-initiated knockback
(wasHitByPlayer false, set by hitCharacter at SkinViewer.jsx:799) while it
is still in the running-away state from an earlier agent-vs-agent hit. -/
def settleRunChar : Character :=
  { baseCharacter with
    animationState := AnimState.run
    y := 1 / 10
    knockbackVelocity := some (2, -20, 0)
    gravity := 1 / 2
    knockbackStartTime := some 0
    knockbackMinDuration := some (8 / 10)
    runAwayTimer := some 5
    runAwayFrom := some "x"
    wasHitByPlayer := false }

/-- Same settling configuration with the character in the walking state. -/
def settleWalkChar : Character :=
  { settleRunChar with
    animationState := AnimState.walk
    runAwayTimer := none
    runAwayFrom := none }

/-- Concrete respawn draw. -/
def sampleRespawnDraw : RespawnDraw :=
  { dirX := 1, dirZ := 0, radiusU := 1 / 2, jitterX := 0, jitterZ := 0,
    waveU := 1 / 2, armLeft := true, cttMs := 1700000 }

/-- Concrete thrown character crossing the 500-unit screen edge. -/
def thrownEdgeChar : Character :=
  { baseCharacter with
    x := 600
    isThrown := true
    throwVelocity := some (5, 0)
    dropVelocity := some 0 }

/-- Concrete knocked-back character that is on the ground before its
minimum knockback duration has elapsed. -/
def groundedEarlyChar : Character :=
  { baseCharacter with
    y := 0
    knockbackVelocity := some (3, -2, 1)
    gravity := 1 / 2
    knockbackStartTime := some 0
    knockbackMinDuration := some (4 / 5) }

/-- Concrete character at (200, 0) whose replan timer has just expired. -/
def replanChar : Character :=
  { baseCharacter with x := 200, z := 0, changeTargetTime := (0 : ℚ) }

/-- Single candidate draw landing at (135, 0), within minTargetDistance of
a character standing at (200, 0). -/
def rejDraw : AttemptDraw :=
  { dirX := 1, dirZ := 0, outerBias := false, radiusU := 0, noiseU := 0 }

/-- Twentyfive identically rejected candidate draws. -/
def rejectedDraws : List AttemptDraw := List.replicate 25 rejDraw

/-- Concrete fallback draw. -/
def sampleFallbackDraw : FallbackDraw := { dirX := 1, dirZ := 0, u := 1 / 2 }

/-- Pose function that succeeds, bumping the animation progress. -/
def animBump : Character → Except String Character :=
  fun c => Except.ok { c with animProgress := c.animProgress + 1 }

/-- Pose function that always throws. -/
def alwaysPoseError : Character → Except String Character :=
  fun _ => Except.error "pose error"

/-- Core update that always succeeds unchanged. -/
def okCore : Character → Except String Character := fun c => Except.ok c

/-- Per-character update used in the aborted-tick scenario. -/
def updTickC3 : Character → Except String Character :=
  fun c => charUpdate animBump rejectedDraws sampleFallbackDraw (1 / 2) [] c

/-- First character of the aborted-tick scenario: its replan throws. -/
def charA3 : Character := { replanChar with username := "alice" }

/-- Second character of the aborted-tick scenario: its update succeeds. -/
def charB3 : Character := { baseCharacter with username := "bob" }

/-- State charB3 would reach if its update ran. -/
def charB3updated : Character :=
  { charB3 with animProgress := charB3.animProgress + 1 }

/-- Claim C10: invoking the user-initiated hit operation on a character that
is already in the hit state (isHit set, red-overlay timer active) is a
complete no-op: the guard at SkinViewer.jsx:795 returns before the tint
multiplication, the knockback assignment and the timer writes. -/
theorem hit_already_hit_noop (camX camZ nowMs : ℚ) (c : Character)
    (h : c.isHit = true) : hitCharacter camX camZ nowMs c = c := by
  simp [hitCharacter, h]

/-- Witness for hit_already_hit_noop at a concrete hit-state character. -/
theorem hit_already_hit_noop_witness :
    hitCharacter 1 0 2000 hitStateCharacter = hitStateCharacter :=
  hit_already_hit_noop 1 0 2000 hitStateCharacter (by decide)

/-- Claim C5 (code bug evidence): the sampled radius escapes the ranges the
code itself documents.  On the outer-bias branch (probability 0.6) a radius
draw of u = 0.99 yields radius 669.6, beyond maxTargetDistance = 450,
contradicting the in-code comment at SkinViewer.jsx:2665 (radius between 30
and 100 percent of max distance) and the bounds the spec states; on the
other branch (probability 0.4) the same draw yields 446.85, beyond
0.7 * maxTargetDistance = 315, so that branch spans [0.3, 1.0] of max
distance rather than the [0.3, 0.7] the spec describes. -/
theorem candidate_radius_exceeds_spec_bounds :
    candidateRadius true (99 / 100) = 3348 / 5 ∧
    (450 : ℚ) < candidateRadius true (99 / 100) ∧
    candidateRadius false (99 / 100) = 8937 / 20 ∧
    (450 : ℚ) * (7 / 10) < candidateRadius false (99 / 100) := by
  refine ⟨by norm_num [candidateRadius], by norm_num [candidateRadius],
    by norm_num [candidateRadius], by norm_num [candidateRadius]⟩

/-- Registry names distribute over cons. -/
theorem names_cons (ch : Character) (rest : List Character) :
    names (ch :: rest) = ch.username :: names rest := rfl

/-- Membership in the names of a registry. -/
theorem mem_names (v : String) (reg : List Character) :
    v ∈ names reg ↔ ∃ ch ∈ reg, ch.username = v := by
  simp [names]

/-- updateClusterId rewrites at most a clusterId, so it preserves names. -/
theorem names_updateClusterId (u cid : String) (reg : List Character) :
    names (updateClusterId u cid reg) = names reg := by
  induction reg with
  | nil => rfl
  | cons ch rest ih =>
    simp only [updateClusterId]
    split
    · rfl
    · simp only [names_cons, ih]

/-- The clusterId refresh pass preserves names. -/
theorem names_ucFold (L : List RosterEntry) (reg : List Character) :
    names (ucFold L reg) = names reg := by
  induction L generalizing reg with
  | nil => rfl
  | cons p L ih =>
    show names (ucFold L (updateClusterId p.username p.clusterId reg)) = names reg
    rw [ih, names_updateClusterId]

/-- Unfolding lemma for the removal pass. -/
theorem removeFold_cons (u : String) (us : List String) (reg : List Character) :
    removeFold (u :: us) reg = removeFold us (removeCharacter u reg) := rfl

/-- Removals whose usernames all differ from the head pass over the head. -/
theorem removeFold_head_skip (F : List String) (ch : Character)
    (rest : List Character) (h : ∀ u ∈ F, u ≠ ch.username) :
    removeFold F (ch :: rest) = ch :: removeFold F rest := by
  induction F generalizing rest with
  | nil => rfl
  | cons u F ih =>
    have hne : ¬(ch.username = u) := fun he => h u (by simp) he.symm
    rw [removeFold_cons, removeFold_cons]
    show removeFold F (if ch.username = u then rest else ch :: removeCharacter u rest)
      = ch :: removeFold F (removeCharacter u rest)
    rw [if_neg hne]
    exact ih (removeCharacter u rest) (fun v hv => h v (by simp [hv]))

/-- Removing every name of the registry that satisfies P, one first
occurrence at a time, filters the registry down to the characters whose
name does not satisfy P. -/
theorem removeFold_filter (P : String → Bool) (reg : List Character) :
    removeFold ((names reg).filter (fun u => P u)) reg
      = reg.filter (fun ch => !(P ch.username)) := by
  induction reg with
  | nil => rfl
  | cons ch rest ih =>
    rw [names_cons]
    by_cases h : P ch.username = true
    · rw [List.filter_cons_of_pos h, removeFold_cons]
      show removeFold ((names rest).filter (fun u => P u))
          (if ch.username = ch.username then rest else _) = _
      rw [if_pos rfl, ih, List.filter_cons_of_neg (by simp [h])]
    · have hb : P ch.username = false := by
        cases hx : P ch.username
        · rfl
        · exact absurd hx h
      rw [List.filter_cons_of_neg (by simp [hb])]
      rw [removeFold_head_skip _ ch rest (fun u hu he => by
        have := List.of_mem_filter hu
        rw [he, hb] at this
        exact Bool.false_ne_true this)]
      rw [ih, List.filter_cons_of_pos (by simp [hb])]

/-- Name membership after a single add. -/
theorem mem_names_addCharacter (c : Character) (reg : List Character)
    (v : String) :
    v ∈ names (addCharacter c reg) ↔ v ∈ names reg ∨ v = c.username := by
  unfold addCharacter
  split
  · rename_i h
    constructor
    · exact Or.inl
    · rintro (hv | rfl)
      · exact hv
      · exact h
  · show v ∈ names (reg ++ [c]) ↔ _
    simp [names]

/-- Unfolding lemma for the addition pass. -/
theorem addFold_cons (mk : RosterEntry → Character) (p : RosterEntry)
    (L : List RosterEntry) (reg : List Character) :
    addFold mk (p :: L) reg = addFold mk L (addCharacter (mk p) reg) := rfl

/-- Name membership after the addition pass. -/
theorem mem_names_addFold (mk : RosterEntry → Character)
    (L : List RosterEntry) (reg : List Character) (v : String) :
    v ∈ names (addFold mk L reg) ↔
      v ∈ names reg ∨ ∃ p ∈ L, (mk p).username = v := by
  induction L generalizing reg with
  | nil => simp [addFold]
  | cons p L ih =>
    rw [addFold_cons, ih, mem_names_addCharacter]
    constructor
    · rintro ((hv | rfl) | ⟨q, hq, hqv⟩)
      · exact Or.inl hv
      · exact Or.inr ⟨p, by simp⟩
      · exact Or.inr ⟨q, by simp [hq], hqv⟩
    · rintro (hv | ⟨q, hq, hqv⟩)
      · exact Or.inl (Or.inl hv)
      · rcases List.mem_cons.mp hq with rfl | hq2
        · exact Or.inl (Or.inr hqv.symm)
        · exact Or.inr ⟨q, hq2, hqv⟩

/-- Rewriting the clusterId of the same first occurrence twice keeps only
the second write. -/
theorem updateClusterId_overwrite (u a b : String) (reg : List Character) :
    updateClusterId u b (updateClusterId u a reg) = updateClusterId u b reg := by
  induction reg with
  | nil => rfl
  | cons ch rest ih =>
    by_cases h : ch.username = u
    · simp [updateClusterId, h]
    · simp [updateClusterId, h, ih]

/-- ClusterId writes at different usernames commute. -/
theorem updateClusterId_comm (u v a b : String) (reg : List Character)
    (huv : u ≠ v) :
    updateClusterId u a (updateClusterId v b reg)
      = updateClusterId v b (updateClusterId u a reg) := by
  induction reg with
  | nil => rfl
  | cons ch rest ih =>
    by_cases hv : ch.username = v
    · have hu : ¬(ch.username = u) := fun he => huv (he.symm.trans hv)
      simp [updateClusterId, hv, hu, Ne.symm huv]
    · by_cases hu : ch.username = u
      · simp [updateClusterId, hv, hu, huv]
      · simp [updateClusterId, hv, hu, ih]

/-- Unfolding lemma for the clusterId refresh pass. -/
theorem ucFold_cons (p : RosterEntry) (L : List RosterEntry)
    (reg : List Character) :
    ucFold (p :: L) reg = ucFold L (updateClusterId p.username p.clusterId reg) :=
  rfl

/-- A clusterId write at a username no later entry touches commutes out of
the refresh pass. -/
theorem ucFold_commute (L : List RosterEntry) (u a : String)
    (reg : List Character) (h : ∀ p ∈ L, p.username ≠ u) :
    ucFold L (updateClusterId u a reg) = updateClusterId u a (ucFold L reg) := by
  induction L generalizing reg with
  | nil => rfl
  | cons p L ih =>
    rw [ucFold_cons, ucFold_cons,
      updateClusterId_comm p.username u p.clusterId a reg (h p (by simp))]
    exact ih (updateClusterId p.username p.clusterId reg)
      (fun q hq => h q (by simp [hq]))

/-- A clusterId write at a username some later entry also writes is
absorbed by the refresh pass. -/
theorem ucFold_absorb (L : List RosterEntry) (u a : String)
    (reg : List Character) (h : ∃ p ∈ L, p.username = u) :
    ucFold L (updateClusterId u a reg) = ucFold L reg := by
  induction L generalizing reg a with
  | nil => simp at h
  | cons q L ih =>
    by_cases hq : q.username = u
    · rw [ucFold_cons, ucFold_cons, hq, updateClusterId_overwrite]
    · have h2 : ∃ p ∈ L, p.username = u := by
        rcases h with ⟨p, hp, hpu⟩
        rcases List.mem_cons.mp hp with rfl | hp2
        · exact absurd hpu hq
        · exact ⟨p, hp2, hpu⟩
      rw [ucFold_cons, ucFold_cons,
        updateClusterId_comm q.username u q.clusterId a reg hq]
      exact ih a (updateClusterId q.username q.clusterId reg) h2

/-- The clusterId refresh pass is idempotent: replaying the same write
sequence leaves the registry unchanged. -/
theorem ucFold_idem (L : List RosterEntry) (reg : List Character) :
    ucFold L (ucFold L reg) = ucFold L reg := by
  induction L generalizing reg with
  | nil => rfl
  | cons p L ih =>
    rw [ucFold_cons, ucFold_cons]
    by_cases h : ∃ q ∈ L, q.username = p.username
    · rw [ucFold_absorb L p.username p.clusterId _ h]
      exact ih (updateClusterId p.username p.clusterId reg)
    · push_neg at h
      rw [ucFold_commute L p.username p.clusterId _ h, ih,
        ucFold_commute L p.username p.clusterId reg h,
        updateClusterId_overwrite]

/-- Unfolded form of the sync registry. -/
theorem sync_registry_def (mk : RosterEntry → Character)
    (roster : List RosterEntry) (reg : List Character) :
    (syncCharacters mk roster reg).registry
      = ucFold roster
          (addFold mk (syncToAdd roster reg)
            (removeFold (syncToRemove roster reg) reg)) := rfl

/-- The removal pass of a sync keeps exactly the characters whose username
appears in the roster. -/
theorem removeFold_syncToRemove (roster : List RosterEntry)
    (reg : List Character) :
    removeFold (syncToRemove roster reg) reg
      = reg.filter (fun ch => (roster.map (·.username)).contains ch.username) := by
  unfold syncToRemove
  rw [removeFold_filter]
  simp

/-- Every roster username is present in the post-sync registry. -/
theorem roster_mem_names_sync (mk : RosterEntry → Character)
    (roster : List RosterEntry) (reg : List Character)
    (hmk : ∀ p, (mk p).username = p.username) (p : RosterEntry)
    (hp : p ∈ roster) :
    p.username ∈ names (syncCharacters mk roster reg).registry := by
  rw [sync_registry_def, names_ucFold, mem_names_addFold]
  by_cases hmem : p.username ∈ names reg
  · left
    rw [removeFold_syncToRemove]
    rcases (mem_names p.username reg).mp hmem with ⟨ch, hch, hchname⟩
    exact (mem_names _ _).mpr ⟨ch, List.mem_filter.mpr ⟨hch, by
      rw [hchname]
      exact List.elem_iff.mpr (List.mem_map.mpr ⟨p, hp, rfl⟩)⟩, hchname⟩
  · right
    refine ⟨p, List.mem_filter.mpr ⟨hp, ?_⟩, hmk p⟩
    simpa using hmem

/-- Every post-sync registry username comes from the roster. -/
theorem names_sync_sub_roster (mk : RosterEntry → Character)
    (roster : List RosterEntry) (reg : List Character)
    (hmk : ∀ p, (mk p).username = p.username) (v : String)
    (hv : v ∈ names (syncCharacters mk roster reg).registry) :
    v ∈ roster.map (·.username) := by
  rw [sync_registry_def, names_ucFold, mem_names_addFold] at hv
  rcases hv with hv | ⟨q, hq, hqv⟩
  · rw [removeFold_syncToRemove] at hv
    rcases (mem_names v _).mp hv with ⟨ch, hch, hchname⟩
    have := (List.mem_filter.mp hch).2
    rw [hchname] at this
    exact List.elem_iff.mp this
  · have hq2 := (List.mem_filter.mp hq).1
    exact List.mem_map.mpr ⟨q, hq2, (hmk q).symm.trans hqv ▸ rfl⟩

/-- Claim C1: syncing twice in a row with an identical roster is a no-op on
the second call — zero added ids, zero removed ids, and the registry is
unchanged (every retained character keeps its position, target and state
bit for bit; the clusterId refresh rewrites the same values it wrote on the
first call) — and adding a username that is already present is a no-op
(SkinViewer.jsx:911-914).  hmk records that addCharacter stores the roster
username on the new record (line 981). -/
theorem sync_idempotent_and_add_noop
    (mk : RosterEntry → Character) (roster : List RosterEntry)
    (reg regB : List Character) (c : Character)
    (hmk : ∀ p, (mk p).username = p.username)
    (hc : c.username ∈ names regB) :
    addCharacter c regB = regB ∧
    (syncCharacters mk roster (syncCharacters mk roster reg).registry).added = [] ∧
    (syncCharacters mk roster (syncCharacters mk roster reg).registry).removed = [] ∧
    (syncCharacters mk roster (syncCharacters mk roster reg).registry).registry
      = (syncCharacters mk roster reg).registry := by
  have hAdd2 : syncToAdd roster (syncCharacters mk roster reg).registry = [] := by
    unfold syncToAdd
    rw [List.filter_eq_nil_iff]
    intro p hp
    have hmem := roster_mem_names_sync mk roster reg hmk p hp
    simp [hmem]
  have hRem2 : syncToRemove roster (syncCharacters mk roster reg).registry = [] := by
    unfold syncToRemove
    rw [List.filter_eq_nil_iff]
    intro v hv
    have hmem := names_sync_sub_roster mk roster reg hmk v hv
    simp [hmem]
  refine ⟨by simp [addCharacter, hc], ?_, ?_, ?_⟩
  · show (syncToAdd roster (syncCharacters mk roster reg).registry).map (·.username) = []
    rw [hAdd2]
    rfl
  · show syncToRemove roster (syncCharacters mk roster reg).registry = []
    exact hRem2
  · rw [sync_registry_def mk roster (syncCharacters mk roster reg).registry,
      hAdd2, hRem2]
    have h1 : addFold mk []
        (removeFold [] (syncCharacters mk roster reg).registry)
        = (syncCharacters mk roster reg).registry := rfl
    rw [h1, sync_registry_def mk roster reg, ucFold_idem]

/-- Evaluation rule for ratSqrt at natural-number arguments. -/
theorem ratSqrt_natCast (n : ℕ) : ratSqrt (n : ℚ) = (intSqrt n : ℚ) := by
  simp [ratSqrt, Rat.num_natCast, Rat.den_natCast]

/-- Counterexample to claim C2: after b is removed from the registry, the
holder of runAwayFrom = b does not fall back to a neutral state on the next
tick.  Its run-away update still dereferences the retained object, reads
the removed agent position (moving b from (10, 0) to (0, 10) changes the
computed flee target), keeps the reference, and stays in the running
state. -/
theorem runaway_reads_removed_agent_counterexample :
    ("b" ∉ names ghostWorldA.registry) ∧
    ("b" ∉ names ghostWorldB.registry) ∧
    (runAwayTick deltaTime ghostWorldA runAwayHolder).animationState
      = AnimState.run ∧
    (runAwayTick deltaTime ghostWorldA runAwayHolder).runAwayFrom = some "b" ∧
    (runAwayTick deltaTime ghostWorldA runAwayHolder).runAwayTarget
      = some (-162, 0) ∧
    (runAwayTick deltaTime ghostWorldB runAwayHolder).runAwayTarget
      = some (0, -162) := by
  have hsqrt : ratSqrt (100 : ℚ) = 10 := by
    have h1 : ((100 : ℕ) : ℚ) = (100 : ℚ) := by norm_num
    have h2 : intSqrt 100 = 10 := by decide
    rw [← h1, ratSqrt_natCast, h2]
    norm_num
  have hab : ("a" == "b") = false := rfl
  refine ⟨by decide, by decide, ?_, ?_, ?_, ?_⟩ <;>
    norm_num [runAwayTick, runAwayUpdate, deref, ghostWorldA, ghostWorldB,
      runAwayHolder, baseCharacter, deltaTime, List.find?, hab, hsqrt]

/-- Amended claim C2: the run-away validity check consults only the stored
object reference, never the registry.  The update is invariant under any
change of the registry contents; and while the dereferenced object (alive
in the JS heap even after removal) is at squared distance in (0, 300^2) and
the timer has not expired, the holder keeps its state and reference and
recomputes the flee target from the referenced object position.  Fallback
to Walking happens only on a null/invalid object, an out-of-range hitter,
or timer expiry — not on registry removal. -/
theorem runaway_ref_ignores_registry
    (dt : ℚ) (h : List (String × (ℚ × ℚ))) (r1 r2 : List Character)
    (c : Character) (t hx hz : ℚ)
    (ht : c.runAwayTimer = some t) (h0 : 0 < t) (hdt : dt < t)
    (hd : deref { registry := r1, heap := h } c.runAwayFrom = some (hx, hz))
    (hin : 0 < (c.x - hx) ^ 2 + (c.z - hz) ^ 2 ∧
      (c.x - hx) ^ 2 + (c.z - hz) ^ 2 < 300 ^ 2) :
    runAwayTick dt { registry := r1, heap := h } c
      = runAwayTick dt { registry := r2, heap := h } c ∧
    (runAwayTick dt { registry := r1, heap := h } c).animationState
      = c.animationState ∧
    (runAwayTick dt { registry := r1, heap := h } c).runAwayFrom
      = c.runAwayFrom ∧
    (runAwayTick dt { registry := r1, heap := h } c).runAwayTimer
      = some (t - dt) ∧
    (runAwayTick dt { registry := r1, heap := h } c).runAwayTarget
      = some ((c.x + (c.x - hx) / ratSqrt ((c.x - hx) ^ 2 + (c.z - hz) ^ 2) * 180)
                * (9 / 10),
              (c.z + (c.z - hz) / ratSqrt ((c.x - hx) ^ 2 + (c.z - hz) ^ 2) * 180)
                * (9 / 10)) := by
  have hreg : runAwayTick dt { registry := r1, heap := h } c
      = runAwayTick dt { registry := r2, heap := h } c := rfl
  refine ⟨hreg, ?_⟩
  unfold runAwayTick
  rw [hd]
  unfold runAwayUpdate
  rw [ht]
  simp only [if_neg (not_le.mpr h0)]
  rw [if_pos hin]
  have hne : ¬(t - dt ≤ 0) := not_le.mpr (by linarith)
  simp [hne]

/-- Witness for runaway_ref_ignores_registry at the concrete ghost world. -/
theorem runaway_ref_ignores_registry_witness :
    runAwayTick deltaTime ghostWorldA runAwayHolder
      = runAwayTick deltaTime
          { registry := [], heap := ghostWorldA.heap } runAwayHolder ∧
    (runAwayTick deltaTime ghostWorldA runAwayHolder).animationState
      = runAwayHolder.animationState ∧
    (runAwayTick deltaTime ghostWorldA runAwayHolder).runAwayFrom
      = runAwayHolder.runAwayFrom ∧
    (runAwayTick deltaTime ghostWorldA runAwayHolder).runAwayTimer
      = some (5 - deltaTime) ∧
    (runAwayTick deltaTime ghostWorldA runAwayHolder).runAwayTarget
      = some ((runAwayHolder.x + (runAwayHolder.x - 10)
            / ratSqrt ((runAwayHolder.x - 10) ^ 2 + (runAwayHolder.z - 0) ^ 2)
            * 180) * (9 / 10),
          (runAwayHolder.z + (runAwayHolder.z - 0)
            / ratSqrt ((runAwayHolder.x - 10) ^ 2 + (runAwayHolder.z - 0) ^ 2)
            * 180) * (9 / 10)) := by
  have hmain := runaway_ref_ignores_registry deltaTime ghostWorldA.heap
    ghostWorldA.registry [] runAwayHolder 5 10 0 rfl (by norm_num)
    (by norm_num [deltaTime]) rfl
    (by constructor <;> norm_num [runAwayHolder, baseCharacter])
  exact hmain

/-- Accumulating fold of per-index counts equals the starting value plus
the sum of the counts. -/
theorem foldl_count_eq_sum (f : ℕ → ℕ) :
    ∀ (l : List ℕ) (a : ℕ),
      l.foldl (fun acc i => acc + f i) a = a + (l.map f).sum := by
  intro l
  induction l with
  | nil => intro a; simp
  | cons i l ih =>
    intro a
    simp only [List.foldl_cons, List.map_cons, List.sum_cons, ih]
    omega

/-- Counting indices whose count is positive is bounded by the sum of the
counts. -/
theorem countP_le_sum_map (p : ℕ → Bool) (f : ℕ → ℕ)
    (hpf : ∀ i, p i = true → 1 ≤ f i) :
    ∀ l : List ℕ, l.countP p ≤ (l.map f).sum := by
  intro l
  induction l with
  | nil => simp
  | cons i l ih =>
    rw [List.countP_cons, List.map_cons, List.sum_cons]
    cases hp : p i
    · have hz : (if (false = true) then 1 else 0) = 0 := rfl
      rw [hz]
      omega
    · have h1 := hpf i hp
      have ho : (if (true = true) then 1 else 0) = 1 := rfl
      rw [ho]
      omega

/-- Amended claim C7: the detector runs when the accumulated timer exceeds
0.5 s and the target is more than 15 units away, it samples exactly the 5
points at fractions 1/5..5/5 of the line to the target, and it reports
blocked exactly when the total number of (sample point, other character)
pairs within 40 units is at least 2 — pair count, not the fraction of
obstructed sample points.  The obstructed-point count never exceeds the
pair count. -/
theorem path_blocked_counts_pairs (dt t : ℚ) (c : Character)
    (others : List Character) :
    ((pathBlockedStep dt t c others).2 = true ↔
      (1 / 2 < t + dt ∧
        (15 : ℚ) ^ 2 < (c.targetX - c.x) ^ 2 + (c.targetZ - c.z) ^ 2 ∧
        2 ≤ blockedPairCount c others)) ∧
    obstructedPointCount c others ≤ blockedPairCount c others := by
  constructor
  · unfold pathBlockedStep
    split
    · rename_i hguard
      simp only [decide_eq_true_eq]
      constructor
      · intro hlt
        refine ⟨hguard.1, hguard.2, ?_⟩
        by_contra hn
        push_neg at hn
        have hle : (blockedPairCount c others : ℚ) ≤ 1 := by
          exact_mod_cast Nat.lt_succ_iff.mp hn
        norm_num at hlt
        linarith
      · rintro ⟨-, -, h2⟩
        have : (2 : ℚ) ≤ (blockedPairCount c others : ℚ) := by exact_mod_cast h2
        norm_num
        linarith
    · rename_i hguard
      push_neg at hguard
      simp only [Bool.false_eq_true, false_iff]
      rintro ⟨h1, h2, -⟩
      exact absurd h2 (not_lt.mpr (hguard h1))
  · unfold obstructedPointCount blockedPairCount
    rw [foldl_count_eq_sum (fun i => others.countP (nearSamplePoint c i))
      sampleIndices 0]
    simp only [Nat.zero_add]
    refine countP_le_sum_map _ _ ?_ sampleIndices
    intro i hp
    rcases List.any_eq_true.mp hp with ⟨o, ho, hgo⟩
    exact Nat.one_le_iff_ne_zero.mpr
      (Nat.pos_iff_ne_zero.mp (List.countP_pos_iff.mpr ⟨o, ho, hgo⟩))

/-- Counterexample to claim C7 as stated: two other characters near one
single sample point make the code report blocked (pair count 2 > 1.5) even
though only 1 of the 5 sample points — 20 percent, below the 30 percent
threshold — is obstructed, so blocked does not hold iff more than 30
percent of the sample points are obstructed. -/
theorem path_blocked_point_fraction_counterexample :
    (pathBlockedStep deltaTime (1 / 2) pathBlockedChar pathBlockedOthers).2
      = true ∧
    obstructedPointCount pathBlockedChar pathBlockedOthers = 1 ∧
    ((obstructedPointCount pathBlockedChar pathBlockedOthers : ℚ)
      ≤ 5 * (3 / 10)) := by
  refine ⟨?_, ?_, ?_⟩ <;>
    norm_num [pathBlockedStep, blockedPairCount, obstructedPointCount,
      nearSamplePoint, sampleIndices, pathBlockedChar, pathBlockedOthers,
      baseCharacter, deltaTime, List.countP_cons, List.any_cons]

/-- Counterexample to claim C8 as stated: a character whose knockback came
from a user-initiated hit (wasHitByPlayer false) but which is already in
the running-away state settles into RunningAway, not Waving — the settle
block at SkinViewer.jsx:3407-3409 keeps a running character running
regardless of the hit origin, so the Waving / RunningAway dichotomy by hit
origin fails. -/
theorem knockback_settle_wave_counterexample :
    settleRunChar.wasHitByPlayer = false ∧
    (knockbackStep deltaTime 2000 (1 / 2) true settleRunChar).knockbackVelocity
      = none ∧
    (knockbackStep deltaTime 2000 (1 / 2) true settleRunChar).animationState
      = AnimState.run ∧
    (knockbackStep deltaTime 2000 (1 / 2) true settleRunChar).waveDuration
      = none := by
  refine ⟨rfl, ?_, ?_, ?_⟩ <;>
    norm_num [knockbackStep, settleRunChar, baseCharacter, deltaTime]

/-- Amended claim C8: when a knockback settles (ground reached with the
minimum duration elapsed) the override clears, and the next state is:
RunningAway if the character is already running (agent-vs-agent victims
whose red overlay expired mid-knockback, or re-hit fleeing characters);
else Waving for 4-6 s exactly when the knockback was user-initiated
(wasHitByPlayer false); else (agent-vs-agent, run not yet started) the
state is left unchanged — the victim enters RunningAway when its red
overlay expires (SkinViewer.jsx:3377-3381), which the final conjunct
states.  Waving and RunningAway are never both entered. -/
theorem knockback_settle_transition
    (dt nowMs rngWave t0 m vx vy vz : ℚ) (rngArm : Bool) (c : Character)
    (hkv : c.knockbackVelocity = some (vx, vy, vz))
    (hst : c.knockbackStartTime = some t0)
    (hmd : c.knockbackMinDuration = some m)
    (hy : c.y + vy * dt ≤ 0)
    (hel : m ≤ (nowMs - t0) / 1000)
    (hw0 : 0 ≤ rngWave) (hw1 : rngWave < 1) :
    (knockbackStep dt nowMs rngWave rngArm c).knockbackVelocity = none ∧
    (c.animationState = AnimState.run →
      (knockbackStep dt nowMs rngWave rngArm c).animationState = AnimState.run ∧
      (knockbackStep dt nowMs rngWave rngArm c).waveDuration = c.waveDuration) ∧
    (c.animationState ≠ AnimState.run → c.wasHitByPlayer = false →
      (knockbackStep dt nowMs rngWave rngArm c).animationState = AnimState.wave ∧
      ∃ d, (knockbackStep dt nowMs rngWave rngArm c).waveDuration = some d ∧
        4 ≤ d ∧ d < 6) ∧
    (c.animationState ≠ AnimState.run → c.wasHitByPlayer = true →
      (knockbackStep dt nowMs rngWave rngArm c).animationState
        = c.animationState ∧
      (knockbackStep dt nowMs rngWave rngArm c).waveDuration = c.waveDuration) ∧
    ¬((knockbackStep dt nowMs rngWave rngArm c).animationState = AnimState.wave ∧
      (knockbackStep dt nowMs rngWave rngArm c).animationState = AnimState.run) ∧
    (∀ (dt2 a : ℚ) (c2 : Character), c2.isBeingHit = true →
      c2.hitTimer = some a → a - dt2 ≤ 0 → c2.shouldRunAway = true →
      c2.runAwayTimer.isSome = true →
      (beingHitOverlayStep dt2 c2).animationState = AnimState.run ∧
      (beingHitOverlayStep dt2 c2).shouldRunAway = false) := by
  have hstep : knockbackStep dt nowMs rngWave rngArm c =
      (if c.animationState = AnimState.run then
        { c with x := c.x + vx * dt, z := c.z + vz * dt, y := 0,
                 knockbackVelocity := none, knockbackStartTime := none,
                 knockbackMinDuration := none, wasHitByPlayer := false }
      else if c.wasHitByPlayer = false then
        { c with x := c.x + vx * dt, z := c.z + vz * dt, y := 0,
                 knockbackVelocity := none, knockbackStartTime := none,
                 knockbackMinDuration := none,
                 animationState := AnimState.wave,
                 waveDuration := some (4 + rngWave * 2),
                 waveArmLeft := rngArm, animProgress := 0 }
      else
        { c with x := c.x + vx * dt, z := c.z + vz * dt, y := 0,
                 knockbackVelocity := none, knockbackStartTime := none,
                 knockbackMinDuration := none, wasHitByPlayer := false }) := by
    unfold knockbackStep
    rw [hkv]
    simp only [hst, hmd, Option.getD_some]
    rw [if_pos ⟨hy, by simp [decide_eq_true_eq]; exact hel⟩]
  have hoverlay : ∀ (dt2 a : ℚ) (c2 : Character), c2.isBeingHit = true →
      c2.hitTimer = some a → a - dt2 ≤ 0 → c2.shouldRunAway = true →
      c2.runAwayTimer.isSome = true →
      (beingHitOverlayStep dt2 c2).animationState = AnimState.run ∧
      (beingHitOverlayStep dt2 c2).shouldRunAway = false := by
    intro dt2 a c2 hbh hht hexp hsr hrt
    unfold beingHitOverlayStep
    rw [if_pos hbh, hht]
    simp only [if_pos hexp]
    rw [if_pos ⟨by simpa using hsr, by simpa using hrt⟩]
    exact ⟨rfl, rfl⟩
  by_cases hrun : c.animationState = AnimState.run
  · rw [hstep, if_pos hrun]
    refine ⟨rfl, fun _ => ⟨hrun, rfl⟩, fun hne => absurd hrun hne,
      fun hne => absurd hrun hne, ?_, hoverlay⟩
    rintro ⟨hw, hr⟩
    rw [hw] at hr
    exact AnimState.noConfusion hr
  · rw [hstep, if_neg hrun]
    by_cases hwhp : c.wasHitByPlayer = false
    · rw [if_pos hwhp]
      refine ⟨rfl, fun hx => absurd hx hrun, ?_, ?_, ?_, hoverlay⟩
      · exact fun _ _ => ⟨rfl, ⟨4 + rngWave * 2, rfl, by linarith, by linarith⟩⟩
      · intro _ htrue
        rw [hwhp] at htrue
        exact absurd htrue (by simp)
      · rintro ⟨hw, hr⟩
        rw [hw] at hr
        exact AnimState.noConfusion hr
    · rw [if_neg hwhp]
      have hwt : c.wasHitByPlayer = true := by
        cases hb : c.wasHitByPlayer
        · exact absurd hb hwhp
        · rfl
      refine ⟨rfl, fun hx => absurd hx hrun, ?_, fun _ _ => ⟨rfl, rfl⟩, ?_, hoverlay⟩
      · intro _ hfalse
        rw [hwt] at hfalse
        exact absurd hfalse (by simp)
      · rintro ⟨hw, hr⟩
        rw [hw] at hr
        exact AnimState.noConfusion hr

/-- Witness for knockback_settle_transition at a settling walking character
hit by the user. -/
theorem knockback_settle_transition_witness :
    (knockbackStep deltaTime 2000 (1 / 2) true settleWalkChar).knockbackVelocity
      = none ∧
    (settleWalkChar.animationState = AnimState.run →
      (knockbackStep deltaTime 2000 (1 / 2) true settleWalkChar).animationState
        = AnimState.run ∧
      (knockbackStep deltaTime 2000 (1 / 2) true settleWalkChar).waveDuration
        = settleWalkChar.waveDuration) ∧
    (settleWalkChar.animationState ≠ AnimState.run →
      settleWalkChar.wasHitByPlayer = false →
      (knockbackStep deltaTime 2000 (1 / 2) true settleWalkChar).animationState
        = AnimState.wave ∧
      ∃ d, (knockbackStep deltaTime 2000 (1 / 2) true
              settleWalkChar).waveDuration = some d ∧ 4 ≤ d ∧ d < 6) ∧
    (settleWalkChar.animationState ≠ AnimState.run →
      settleWalkChar.wasHitByPlayer = true →
      (knockbackStep deltaTime 2000 (1 / 2) true settleWalkChar).animationState
        = settleWalkChar.animationState ∧
      (knockbackStep deltaTime 2000 (1 / 2) true settleWalkChar).waveDuration
        = settleWalkChar.waveDuration) ∧
    ¬((knockbackStep deltaTime 2000 (1 / 2) true settleWalkChar).animationState
        = AnimState.wave ∧
      (knockbackStep deltaTime 2000 (1 / 2) true settleWalkChar).animationState
        = AnimState.run) ∧
    (∀ (dt2 a : ℚ) (c2 : Character), c2.isBeingHit = true →
      c2.hitTimer = some a → a - dt2 ≤ 0 → c2.shouldRunAway = true →
      c2.runAwayTimer.isSome = true →
      (beingHitOverlayStep dt2 c2).animationState = AnimState.run ∧
      (beingHitOverlayStep dt2 c2).shouldRunAway = false) :=
  knockback_settle_transition deltaTime 2000 (1 / 2) 0 (8 / 10) 2 (-20) 0 true
    settleWalkChar rfl rfl rfl
    (by norm_num [settleWalkChar, settleRunChar, baseCharacter, deltaTime])
    (by norm_num) (by norm_num) (by norm_num)

/-- Dying characters stay dying or leave with the thrown flag cleared: the
death branch only ends in the respawn reset, which clears isThrown
(SkinViewer.jsx:1831). -/
theorem dyingStep_grounded (dt : ℚ) (r : RespawnDraw) (c : Character)
    (hd : c.isDying = true) :
    (dyingStep dt r c).isDying = true ∨ (dyingStep dt r c).isThrown = false := by
  by_cases ht : c.deathTimer - dt ≤ 0
  · right
    simp [dyingStep, ht]
  · left
    simp [dyingStep, ht, hd]

/-- The override dispatch preserves the dying-or-not-thrown invariant. -/
theorem agentTickOverride_grounded (dt : ℚ) (r : RespawnDraw) (c : Character)
    (h : c.isDying = true ∨ c.isThrown = false) :
    (agentTickOverride dt r c).isDying = true ∨
      (agentTickOverride dt r c).isThrown = false := by
  rcases h with hd | ht
  · unfold agentTickOverride
    rw [if_pos hd]
    exact dyingStep_grounded dt r c hd
  · by_cases hd2 : c.isDying = true
    · unfold agentTickOverride
      rw [if_pos hd2]
      exact dyingStep_grounded dt r c hd2
    · unfold agentTickOverride
      rw [if_neg hd2, if_neg (by simp [ht])]
      exact Or.inr ht

/-- A dying or grounded character never satisfies the edge-death guard. -/
theorem firesEdgeDeath_false_of_grounded (c : Character)
    (h : c.isDying = true ∨ c.isThrown = false) :
    firesEdgeDeath c = false := by
  unfold firesEdgeDeath
  rcases h with hd | ht
  · simp [hd]
  · simp [ht]

/-- The dying-or-not-thrown invariant survives any number of ticks. -/
theorem agentTick_fold_grounded (dt : ℚ) :
    ∀ (rs : List RespawnDraw) (c : Character),
      (c.isDying = true ∨ c.isThrown = false) →
      ((rs.foldl (fun a rr => agentTickOverride dt rr a) c).isDying = true ∨
        (rs.foldl (fun a rr => agentTickOverride dt rr a) c).isThrown = false) := by
  intro rs
  induction rs with
  | nil => exact fun c h => h
  | cons r rs ih =>
    intro c h
    exact ih (agentTickOverride dt r c) (agentTickOverride_grounded dt r c h)

/-- Claim C9: when a thrown character crosses 500 units from the origin,
the tick fires the edge-death transition once — isDying set, death timer
1.2 s, throw velocity zeroed — and the guard can never fire again on any
later tick of the same flight: the dying branch runs first and returns
early on every subsequent tick, and after the respawn reset the character
is no longer thrown. -/
theorem thrown_edge_death_fires_once
    (dt : ℚ) (r0 : RespawnDraw) (rs : List RespawnDraw) (c : Character)
    (hfire : firesEdgeDeath c = true) :
    (agentTickOverride dt r0 c).isDying = true ∧
    (agentTickOverride dt r0 c).deathTimer = 6 / 5 ∧
    (agentTickOverride dt r0 c).throwVelocity = some (0, 0) ∧
    firesEdgeDeath (rs.foldl (fun a rr => agentTickOverride dt rr a)
      (agentTickOverride dt r0 c)) = false := by
  unfold firesEdgeDeath at hfire
  simp only [Bool.and_eq_true, Bool.not_eq_true', decide_eq_true_eq] at hfire
  obtain ⟨⟨⟨h1, h2⟩, hdying⟩, h4⟩ := hfire
  obtain ⟨tv, htv⟩ := Option.isSome_iff_exists.mp h2
  have hA : agentTickOverride dt r0 c = thrownStep dt c := by
    unfold agentTickOverride
    rw [if_neg (by simp [hdying]), if_pos ⟨h1, h2⟩]
  have hflags : (agentTickOverride dt r0 c).isDying = true ∧
      (agentTickOverride dt r0 c).deathTimer = 6 / 5 ∧
      (agentTickOverride dt r0 c).throwVelocity = some (0, 0) := by
    rw [hA]
    refine ⟨?_, ?_, ?_⟩ <;> simp [thrownStep, htv, h4, hdying]
  refine ⟨hflags.1, hflags.2.1, hflags.2.2, ?_⟩
  exact firesEdgeDeath_false_of_grounded _
    (agentTick_fold_grounded dt rs (agentTickOverride dt r0 c)
      (Or.inl hflags.1))

/-- Witness for thrown_edge_death_fires_once at a concrete thrown
character at x = 600. -/
theorem thrown_edge_death_fires_once_witness :
    (agentTickOverride deltaTime sampleRespawnDraw thrownEdgeChar).isDying
      = true ∧
    (agentTickOverride deltaTime sampleRespawnDraw thrownEdgeChar).deathTimer
      = 6 / 5 ∧
    (agentTickOverride deltaTime sampleRespawnDraw thrownEdgeChar).throwVelocity
      = some (0, 0) ∧
    firesEdgeDeath
      ([sampleRespawnDraw, sampleRespawnDraw].foldl
        (fun a rr => agentTickOverride deltaTime rr a)
        (agentTickOverride deltaTime sampleRespawnDraw thrownEdgeChar))
      = false :=
  thrown_edge_death_fires_once deltaTime sampleRespawnDraw
    [sampleRespawnDraw, sampleRespawnDraw] thrownEdgeChar
    (by norm_num [firesEdgeDeath, thrownEdgeChar, baseCharacter])

/-- While the vertical knockback velocity has not been exhausted by the
per-frame gravity decrement, every knockback step keeps the character
strictly airborne and the override in place, whatever wall-clock values the
frames carry. -/
theorem knockbackRun_stays_airborne (dt : ℚ) (hdt : 0 < dt) :
    ∀ (frames : List (ℚ × ℚ × Bool)) (c : Character) (vx vy vz : ℚ),
      c.knockbackVelocity = some (vx, vy, vz) → c.gravity = 1 / 2 →
      0 ≤ c.y → ((frames.length : ℚ) ≤ 2 * vy) →
      (knockbackRun dt frames c).knockbackVelocity.isSome = true := by
  intro frames
  induction frames with
  | nil =>
    intro c vx vy vz hkv _ _ _
    simp [knockbackRun, hkv]
  | cons f frames ih =>
    intro c vx vy vz hkv hg hy hlen
    rw [List.length_cons] at hlen
    push_cast at hlen
    have hcast : (0 : ℚ) ≤ (frames.length : ℚ) := Nat.cast_nonneg _
    have hvy : (0 : ℚ) < vy := by linarith
    have hy1 : 0 < c.y + vy * dt :=
      add_pos_of_nonneg_of_pos hy (mul_pos hvy hdt)
    have hnot : ¬(c.y + vy * dt ≤ 0) := not_le.mpr hy1
    have hstep : knockbackStep dt f.1 f.2.1 f.2.2 c =
        { c with x := c.x + vx * dt, z := c.z + vz * dt, y := c.y + vy * dt,
                 knockbackVelocity := some (vx, vy - 1 / 2, vz) } := by
      unfold knockbackStep
      rw [hkv]
      norm_num [hnot, hg]
    show (knockbackRun dt frames
      (knockbackStep dt f.1 f.2.1 f.2.2 c)).knockbackVelocity.isSome = true
    rw [hstep]
    refine ih _ vx (vy - 1 / 2) vz rfl ?_ (le_of_lt hy1) ?_
    · show c.gravity = 1 / 2
      exact hg
    · linarith

/-- Claim C4: a knockback entered through either hit path (user click,
SkinViewer.jsx:793-835, vertical velocity 22; agent-vs-agent,
2509-2521, vertical velocity 18; both with gravity 0.5 per frame and a
0.8 s minimum duration) is never cleared — and the settle transition never
fires — within the first 19 simulation frames, that is before
19/24 s < 0.8 s of simulated time have passed, for every choice of
wall-clock values: the vertical velocity stays positive through at least 36
frames, so the character cannot be at the ground.  The last conjunct is
the grounded-early clamp (3421-3427): at the ground before the minimum
duration, the character is pinned to y = 0, the override stays, and the
horizontal knockback is applied (twice). -/
theorem knockback_min_duration_holds :
    (∀ (camX camZ nowMs : ℚ) (c : Character) (frames : List (ℚ × ℚ × Bool)),
      c.isHit = false → 0 ≤ c.y → frames.length ≤ 19 →
      (knockbackRun deltaTime frames
        (hitCharacter camX camZ nowMs c)).knockbackVelocity.isSome = true) ∧
    (∀ (kx kz nowMs rngRun : ℚ) (hname : String) (v : Character)
        (frames : List (ℚ × ℚ × Bool)),
      0 ≤ v.y → frames.length ≤ 19 →
      (knockbackRun deltaTime frames
        (applyAgentHit kx kz nowMs rngRun hname v)).knockbackVelocity.isSome
        = true) ∧
    (∀ (dt2 now2 rw2 : ℚ) (ra2 : Bool) (c2 : Character) (vx2 vy2 vz2 t0 m : ℚ),
      c2.knockbackVelocity = some (vx2, vy2, vz2) →
      c2.knockbackStartTime = some t0 → c2.knockbackMinDuration = some m →
      c2.gravity = 1 / 2 →
      c2.y + vy2 * dt2 ≤ 0 → (now2 - t0) / 1000 < m →
      (knockbackStep dt2 now2 rw2 ra2 c2).y = 0 ∧
      (knockbackStep dt2 now2 rw2 ra2 c2).knockbackVelocity
        = some (vx2, vy2 - 1 / 2, vz2) ∧
      (knockbackStep dt2 now2 rw2 ra2 c2).x = c2.x + vx2 * dt2 + vx2 * dt2 ∧
      (knockbackStep dt2 now2 rw2 ra2 c2).z = c2.z + vz2 * dt2 + vz2 * dt2) := by
  refine ⟨?_, ?_, ?_⟩
  · intro camX camZ nowMs c frames hc hy hfr
    refine knockbackRun_stays_airborne deltaTime (by norm_num [deltaTime])
      frames (hitCharacter camX camZ nowMs c) (-camX * 18) 22 (-camZ * 18)
      (by simp [hitCharacter, hc]) (by simp [hitCharacter, hc]) ?_ ?_
    · show 0 ≤ (hitCharacter camX camZ nowMs c).y
      simpa [hitCharacter, hc] using hy
    · have : (frames.length : ℚ) ≤ 19 := by exact_mod_cast hfr
      linarith
  · intro kx kz nowMs rngRun hname v frames hy hfr
    refine knockbackRun_stays_airborne deltaTime (by norm_num [deltaTime])
      frames (applyAgentHit kx kz nowMs rngRun hname v) (kx * 15) 18 (kz * 15)
      rfl rfl ?_ ?_
    · show 0 ≤ v.y
      exact hy
    · have : (frames.length : ℚ) ≤ 19 := by exact_mod_cast hfr
      linarith
  · intro dt2 now2 rw2 ra2 c2 vx2 vy2 vz2 t0 m hkv hst hmd hg hy1 hlt
    have hdec : decide (m ≤ (now2 - t0) / 1000) = false :=
      decide_eq_false (not_le.mpr hlt)
    unfold knockbackStep
    rw [hkv]
    simp only [hst, hmd, Option.getD_some, hdec, Bool.false_eq_true,
      and_false, if_false]
    rw [if_pos hy1, hg]
    refine ⟨rfl, ?_, rfl, rfl⟩
    norm_num

/-- Witness for knockback_min_duration_holds: 19 frames after a concrete
user hit and a concrete agent hit, plus the grounded-early clamp at a
concrete configuration. -/
theorem knockback_min_duration_holds_witness :
    (knockbackRun deltaTime (List.replicate 19 ((0 : ℚ), (0 : ℚ), true))
      (hitCharacter 1 0 500 baseCharacter)).knockbackVelocity.isSome = true ∧
    (knockbackRun deltaTime (List.replicate 19 ((0 : ℚ), (0 : ℚ), true))
      (applyAgentHit 1 0 500 (1 / 2) "h" baseCharacter)).knockbackVelocity.isSome
      = true ∧
    ((knockbackStep deltaTime 100 0 true groundedEarlyChar).y = 0 ∧
      (knockbackStep deltaTime 100 0 true groundedEarlyChar).knockbackVelocity
        = some (3, -2 - 1 / 2, 1) ∧
      (knockbackStep deltaTime 100 0 true groundedEarlyChar).x
        = groundedEarlyChar.x + 3 * deltaTime + 3 * deltaTime ∧
      (knockbackStep deltaTime 100 0 true groundedEarlyChar).z
        = groundedEarlyChar.z + 1 * deltaTime + 1 * deltaTime) :=
  ⟨knockback_min_duration_holds.1 1 0 500 baseCharacter _ rfl
      (by norm_num [baseCharacter]) (by simp),
   knockback_min_duration_holds.2.1 1 0 500 (1 / 2) "h" baseCharacter _
      (by norm_num [baseCharacter]) (by simp),
   knockback_min_duration_holds.2.2 deltaTime 100 0 true groundedEarlyChar
      3 (-2) 1 0 (4 / 5) rfl rfl rfl rfl
      (by norm_num [groundedEarlyChar, baseCharacter, deltaTime])
      (by norm_num)⟩

/-- Unfolding rule for a tick pass whose first update succeeds. -/
theorem runTick_cons_ok (upd : Character → Except String Character)
    (c c2 : Character) (cs : List Character) (h : upd c = Except.ok c2) :
    runTick upd (c :: cs) = (c2 :: (runTick upd cs).1, (runTick upd cs).2) := by
  show (match upd c with
    | Except.ok c2 =>
      let r := runTick upd cs
      (c2 :: r.1, r.2)
    | Except.error e => (c :: cs, some e)) = _
  rw [h]

/-- Unfolding rule for a tick pass whose first update throws. -/
theorem runTick_cons_error (upd : Character → Except String Character)
    (c : Character) (cs : List Character) (e : String)
    (h : upd c = Except.error e) :
    runTick upd (c :: cs) = (c :: cs, some e) := by
  show (match upd c with
    | Except.ok c2 =>
      let r := runTick upd cs
      (c2 :: r.1, r.2)
    | Except.error e => (c :: cs, some e)) = _
  rw [h]

/-- A run of identical draws that the minimum-distance filter rejects
produces an empty candidate list. -/
theorem sampleCandidates_replicate_rejected (n : ℕ) (d : AttemptDraw)
    (others : List Character) (c : Character)
    (h : (d.dirX * candidateRadius d.outerBias d.radiusU - c.x) ^ 2
        + (d.dirZ * candidateRadius d.outerBias d.radiusU - c.z) ^ 2
        < (120 : ℚ) ^ 2) :
    sampleCandidates (List.replicate n d) others c = [] := by
  induction n with
  | zero => rfl
  | succ n ih =>
    rw [List.replicate_succ]
    show List.filterMap _ (d :: List.replicate n d) = []
    rw [List.filterMap_cons]
    simp only [if_pos h]
    exact ih

/-- Claim C6 (code bug evidence): when every one of the 25 sampled
candidates is rejected by the minimum-distance filter — here a character at
(200, 0) whose draws all land at (135, 0), 65 < 120 units away — the
selector does not fall back to a random outer-half point: topCandidates is
empty and reading topCandidates[0].density throws a TypeError.  The written
fallback (SkinViewer.jsx:2742-2746) is unreachable, because when candidates
exist, bestCandidates always retains the sorted head. -/
theorem empty_candidates_throws :
    sampleCandidates rejectedDraws [] replanChar = [] ∧
    selectTarget rejectedDraws sampleFallbackDraw [] replanChar
      = Except.error "TypeError: cannot read density of undefined" := by
  have hrej : (rejDraw.dirX
        * candidateRadius rejDraw.outerBias rejDraw.radiusU - replanChar.x) ^ 2
      + (rejDraw.dirZ
        * candidateRadius rejDraw.outerBias rejDraw.radiusU - replanChar.z) ^ 2
      < (120 : ℚ) ^ 2 := by
    norm_num [rejDraw, candidateRadius, replanChar, baseCharacter]
  have hempty := sampleCandidates_replicate_rejected 25 rejDraw [] replanChar hrej
  refine ⟨hempty, ?_⟩
  unfold selectTarget
  rw [show rejectedDraws = List.replicate 25 rejDraw from rfl, hempty]
  rfl

/-- Counterexample to claim C3 as stated: only the animation application is
wrapped in try/catch (SkinViewer.jsx:3516-3532); an error thrown elsewhere
in one agent update — here the TypeError from the empty-candidate replan —
propagates out of allCharacters.forEach, so the second character keeps its
pre-tick state even though its own update would have succeeded and changed
it. -/
theorem agent_error_aborts_tick_counterexample :
    runTick updTickC3 [charA3, charB3]
      = ([charA3, charB3],
         some "TypeError: cannot read density of undefined") ∧
    updTickC3 charB3 = Except.ok charB3updated ∧
    charB3updated ≠ charB3 := by
  have hrej : (rejDraw.dirX
        * candidateRadius rejDraw.outerBias rejDraw.radiusU - charA3.x) ^ 2
      + (rejDraw.dirZ
        * candidateRadius rejDraw.outerBias rejDraw.radiusU - charA3.z) ^ 2
      < (120 : ℚ) ^ 2 := by
    norm_num [rejDraw, candidateRadius, charA3, replanChar, baseCharacter]
  have hempty :=
    sampleCandidates_replicate_rejected 25 rejDraw [] charA3 hrej
  have hsel : selectTarget rejectedDraws sampleFallbackDraw [] charA3
      = Except.error "TypeError: cannot read density of undefined" := by
    unfold selectTarget
    rw [show rejectedDraws = List.replicate 25 rejDraw from rfl, hempty]
    rfl
  have hct : charA3.changeTargetTime = ((0 : ℚ) : WithTop ℚ) := rfl
  have herr : updTickC3 charA3
      = Except.error "TypeError: cannot read density of undefined" := by
    unfold updTickC3 charUpdate replanStage
    rw [hct, if_pos rfl, hsel]
    rfl
  have hok : updTickC3 charB3 = Except.ok charB3updated := by
    unfold updTickC3 charUpdate replanStage
    rw [if_neg (by norm_num [charB3, baseCharacter])]
    rfl
  refine ⟨?_, hok, ?_⟩
  · rw [runTick_cons_error updTickC3 charA3 [charB3] _ herr]
  · intro he
    have hproj := congrArg Character.animProgress he
    simp [charB3updated, charB3, baseCharacter] at hproj

/-- Amended claim C3: per-character isolation holds exactly for the
animation stage — when every character's uncaught core update succeeds, the
tick completes with no error and every character receives its update, even
when the pose call throws for every one of them; but (per the
counterexample) an error outside the caught animation stage aborts the rest
of the pass. -/
theorem animation_errors_do_not_abort_tick
    (anim core : Character → Except String Character) (cs : List Character)
    (h : ∀ c ∈ cs, ∃ c2, core c = Except.ok c2) :
    (runTick (fun c => (core c).map (applyCaughtAnimation anim)) cs).2
      = none ∧
    (runTick (fun c => (core c).map (applyCaughtAnimation anim)) cs).1
      = cs.map (fun c => applyCaughtAnimation anim ((core c).toOption.getD c)) := by
  induction cs with
  | nil => exact ⟨rfl, rfl⟩
  | cons c cs ih =>
    obtain ⟨c2, hc2⟩ := h c (List.mem_cons_self c cs)
    obtain ⟨h1, h2⟩ := ih (fun d hd => h d (List.mem_cons_of_mem c hd))
    have hfc : (core c).map (applyCaughtAnimation anim)
        = Except.ok (applyCaughtAnimation anim c2) := by
      rw [hc2]
      rfl
    constructor
    · rw [runTick_cons_ok _ c (applyCaughtAnimation anim c2) cs hfc]
      exact h1
    · rw [runTick_cons_ok _ c (applyCaughtAnimation anim c2) cs hfc,
        List.map_cons, hc2]
      exact congrArg (fun l => applyCaughtAnimation anim c2 :: l) h2

/-- Witness for animation_errors_do_not_abort_tick: a two-character tick in
which the pose call throws for every character still updates both. -/
theorem animation_errors_do_not_abort_tick_witness :
    (runTick (fun c => (okCore c).map (applyCaughtAnimation alwaysPoseError))
      [baseCharacter, hitStateCharacter]).2 = none ∧
    (runTick (fun c => (okCore c).map (applyCaughtAnimation alwaysPoseError))
      [baseCharacter, hitStateCharacter]).1
      = [baseCharacter, hitStateCharacter].map
          (fun c => applyCaughtAnimation alwaysPoseError
            ((okCore c).toOption.getD c)) :=
  animation_errors_do_not_abort_tick alwaysPoseError okCore
    [baseCharacter, hitStateCharacter] (fun c _ => ⟨c, rfl⟩)

/-- Witness for sync_idempotent_and_add_noop on a concrete two-entry
roster starting from the empty registry. -/
theorem sync_idempotent_and_add_noop_witness :
    addCharacter hitStateCharacter [hitStateCharacter] = [hitStateCharacter] ∧
    (syncCharacters mkFromRoster rosterPair
      (syncCharacters mkFromRoster rosterPair []).registry).added = [] ∧
    (syncCharacters mkFromRoster rosterPair
      (syncCharacters mkFromRoster rosterPair []).registry).removed = [] ∧
    (syncCharacters mkFromRoster rosterPair
      (syncCharacters mkFromRoster rosterPair []).registry).registry
      = (syncCharacters mkFromRoster rosterPair []).registry :=
  sync_idempotent_and_add_noop mkFromRoster rosterPair [] [hitStateCharacter]
    hitStateCharacter (fun _ => rfl) (by decide)

end SkinView
